import Mathlib

/-!
Shallow embedding of the social-media generation pipeline
(`src/core/generator.py`, `src/core/brand_voice.py`, `src/core/config.py`).

Python strings are modelled as `List Char`; Python dicts keyed by platform
name as association lists keyed by `String`.  External model services are
modelled as oracles: a call site's outcome is an `Except` value, and a
service that may be invoked repeatedly is a function from the invocation
index to its outcome.  Retry backoff delays are modelled as exact rationals
(the code multiplies floats by `exponential_base`; for the configured values
1.0 / 2.0 this arithmetic is exact, and the claims are about the exact law).
-/

/-- Python `str.isspace` on the whitespace characters `strip()` removes. -/
def pyIsSpace (c : Char) : Bool :=
  c == ' ' || c == '\t' || c == '\n' || c == '\r' || c == '\x0b' || c == '\x0c'

/-- Python `str.strip()`: drop leading and trailing whitespace. -/
def pyStrip (s : List Char) : List Char :=
  ((s.dropWhile pyIsSpace).reverse.dropWhile pyIsSpace).reverse

/-- The platform table `PLATFORM_SPECS` of `src/core/config.py`, keeping the
fields the pipeline logic reads (`char_limit`, `image_size`, `max_hashtags`);
the remaining keys of the Python dict (`optimal_length`, `image_format`,
`tone`, `api_rate_limit`) are documentation strings never read by the
generation code. -/
structure PlatformSpec where
  char_limit : Nat
  image_size : Nat × Nat
  max_hashtags : Nat
deriving DecidableEq

/-- `PLATFORM_SPECS` from `src/core/config.py`, in dict insertion order. -/
def PLATFORM_SPECS : List (String × PlatformSpec) :=
  [("linkedin", ⟨3000, (1200, 627), 5⟩),
   ("twitter", ⟨280, (1200, 675), 2⟩),
   ("facebook", ⟨63206, (1200, 630), 5⟩),
   ("nextdoor", ⟨5000, (1200, 900), 3⟩)]

/-- One pass of the loop body of the `wrapper` closure in
`retry_with_exponential_backoff` (`generator.py` lines 65-93).
`op k` is the outcome of the k-th invocation of the wrapped operation
(0-indexed); `retriesLeft` counts the retries still allowed (the Python
loop runs `attempt` from 0 to `max_retries`, sleeping and multiplying the
delay only while `attempt < max_retries`).  Returns the final outcome
(the Python code re-raises the last exception unchanged), the number of
invocations made, and the list of delays slept, in order. -/
def retryGo (op : Nat → Except E A) (base : ℚ) :
    Nat → Nat → ℚ → Except E A × Nat × List ℚ
  | 0, attempt, _ =>
    match op attempt with
    | .ok a => (.ok a, 1, [])
    | .error e => (.error e, 1, [])
  | r + 1, attempt, delay =>
    match op attempt with
    | .ok a => (.ok a, 1, [])
    | .error _ =>
      let rest := retryGo op base r (attempt + 1) (delay * base)
      (rest.1, rest.2.1 + 1, delay :: rest.2.2)

/-- `retry_with_exponential_backoff` (`generator.py` lines 49-95) applied to
a zero-argument operation: attempt, and on failure sleep the current delay,
multiply it by `exponential_base` and retry, up to `max_retries` retries
(so `max_retries + 1` total attempts); on final failure the last error is
re-raised unchanged. -/
def retry_with_exponential_backoff (op : Nat → Except E A)
    (max_retries : Nat) (initial_delay exponential_base : ℚ) :
    Except E A × Nat × List ℚ :=
  retryGo op exponential_base max_retries 0 initial_delay

/-- The ellipsis marker `"..."` appended by the truncation fallback. -/
def ELLIPSIS : List Char := ['.', '.', '.']

/-- `SocialMediaGenerator._regenerate_shorter_content` (`generator.py`
lines 279-318), applied to the shortening model's response: strip it, and
if it still exceeds the limit, hard-truncate to `char_limit - 3` characters
and append the ellipsis marker. -/
def regenerate_shorter_content (shortenedResponse : List Char)
    (char_limit : Nat) : List Char :=
  let result := pyStrip shortenedResponse
  if char_limit < result.length then result.take (char_limit - 3) ++ ELLIPSIS
  else result

/-- `SocialMediaGenerator._generate_hashtags` response handling
(`generator.py` lines 519-529): strip the model response, split on commas,
strip each item and remove every `'#'` character from it
(`tag.strip().replace` with the `'#'` pattern and empty replacement),
then truncate the list to `max_hashtags`. -/
def parse_hashtags (response : List Char) (max_hashtags : Nat) :
    List (List Char) :=
  let result := pyStrip response
  let hashtags := (result.splitOn ',').map
    (fun tag => (pyStrip tag).filter (fun c => c != '#'))
  hashtags.take max_hashtags

/-- Modelled from the spec's words for comparison with `parse_hashtags`
(spec section 4.4: "stripping whitespace and any leading `#`"): identical
parse except that only a leading run of `'#'` is stripped from each item,
interior `'#'` characters being kept. -/
def parse_hashtags_spec (response : List Char) (max_hashtags : Nat) :
    List (List Char) :=
  let result := pyStrip response
  let hashtags := (result.splitOn ',').map
    (fun tag => (pyStrip tag).dropWhile (fun c => c == '#'))
  hashtags.take max_hashtags

/-- `BrandVoice.format_hashtags` (`brand_voice.py` lines 186-197): for each
tag, strip any leading run of `'#'` (`lstrip`) and prepend a single `'#'`;
join the results with single spaces. -/
def format_hashtags (hashtags : List (List Char)) : List Char :=
  List.intercalate [' ']
    (hashtags.map (fun tag => '#' :: tag.dropWhile (fun c => c == '#')))

/-- The brand guidelines document as `BrandVoice.get_brand_voice`
(`brand_voice.py` lines 58-91) reads it: the `brand_voice.primary` string
(absent when the YAML has no such key), the `brand_voice.tone_keywords`
list, and the per-platform `platform_preferences` entries; an entry present
in the list models a non-empty preference mapping `{focus, style}` (the
Python code skips an absent or empty mapping). -/
structure Guidelines where
  primary : Option (List Char)
  tone_keywords : List (List Char)
  platform_preferences : List (String × (List Char × List Char))

/-- `BrandVoice.get_brand_voice` (`brand_voice.py` lines 58-91): compose the
primary voice, an "emphasizing ..." clause when tone keywords join to a
non-empty string, and a platform-specific clause when a non-empty
preference entry exists for the platform. -/
def get_brand_voice (g : Guidelines) (platform : String) : List Char :=
  let primary := g.primary.getD ("professional and engaging".toList)
  let keywords_str :=
    if g.tone_keywords.isEmpty then []
    else List.intercalate (", ".toList) g.tone_keywords
  let platform_prefs :=
    if platform = "" then []
    else
      match g.platform_preferences.lookup platform with
      | none => []
      | some (focus, style) =>
          (" For ".toList ++ platform.toList ++ ": ".toList ++ style
            ++ ", focusing on ".toList ++ focus ++ ".".toList)
  let voice := primary
  let voice :=
    if keywords_str = [] then voice
    else voice ++ ", emphasizing ".toList ++ keywords_str
  if platform_prefs = [] then voice else voice ++ platform_prefs

/-- One part of the image service's structured response.  `inline_data` is
`some (w, h)` when the part carries inline image bytes that decode (via
`Image.open`) to a `w`-by-`h` image, and `none` when the part has no usable
inline data (missing attribute, or bytes that fail to decode — both paths
raise inside the `try` block and are caught). -/
structure ImagePart where
  inline_data : Option (Nat × Nat)
deriving DecidableEq

/-- The image service's response; an empty `parts` list also models a
response object without a `parts` attribute (both fail the
`hasattr(response, "parts") and len(response.parts) > 0` check). -/
structure ImageResponse where
  parts : List ImagePart
deriving DecidableEq

/-- The observable outcome of the image step: either an image saved at the
given final pixel size, or the placeholder artifacts of
`_create_placeholder_image` — a solid-color canvas of the given size and
RGB color saved as PNG, plus a sidecar text file recording platform,
dimensions, and prompt. -/
inductive ImageOutcome where
  | saved (platform : String) (size : Nat × Nat)
  | placeholderImage (size : Nat × Nat) (color : Nat × Nat × Nat)
      (sidecar : String × (Nat × Nat) × List Char)
deriving DecidableEq

/-- `SocialMediaGenerator._create_placeholder_image` (`generator.py` lines
423-447): a solid `(240, 240, 245)` canvas at the platform's exact
`image_size`, saved as PNG, with a sidecar text file recording the
platform, the dimensions, and the original prompt. -/
def create_placeholder_image (platform : String) (spec : PlatformSpec)
    (prompt : List Char) : ImageOutcome :=
  .placeholderImage spec.image_size (240, 240, 245)
    (platform, spec.image_size, prompt)

/-- The body of `SocialMediaGenerator._generate_image` (`generator.py`
lines 350-421) for one service invocation outcome `svc`: the whole body is
a `try` block whose `except` clause builds the placeholder, so every
failure — transport error, missing or empty `parts`, missing or
undecodable inline data — yields the placeholder, and the body itself
never raises.  On success the decoded image is resized to the platform's
exact dimensions when it does not already match, and saved. -/
def generate_image_once (svc : Except Unit ImageResponse)
    (platform : String) (spec : PlatformSpec) (prompt : List Char) :
    ImageOutcome :=
  match svc with
  | .error _ => create_placeholder_image platform spec prompt
  | .ok resp =>
    match resp.parts with
    | [] => create_placeholder_image platform spec prompt
    | part :: _ =>
      match part.inline_data with
      | none => create_placeholder_image platform spec prompt
      | some imgSize =>
        let finalSize := if imgSize = spec.image_size then imgSize
                          else spec.image_size
        .saved platform finalSize

/-- Whether the k-th image service invocation outcome is one of the failure
shapes (`except` paths) of `_generate_image`'s body. -/
def image_call_fails : Except Unit ImageResponse → Bool
  | .error _ => true
  | .ok resp =>
    match resp.parts with
    | [] => true
    | part :: _ => part.inline_data.isNone

/-- `SocialMediaGenerator._generate_image` as decorated in the source:
`retry_with_exponential_backoff(max_retries=3, initial_delay=2.0)` wrapped
around the body above.  `svc k` is the outcome the image service would
return on its k-th invocation. -/
def generate_image (svc : Nat → Except Unit ImageResponse)
    (platform : String) (spec : PlatformSpec) (prompt : List Char) :
    Except Unit ImageOutcome × Nat × List ℚ :=
  retry_with_exponential_backoff
    (fun k => Except.ok (generate_image_once (svc k) platform spec prompt))
    3 2 2

/-- The per-call-site outcomes of the external model services for one
platform's pipeline run.  Each `Except` value is the effective outcome of
that call site (the retry wrapper around each site re-raises the last
error unchanged, so a site's final outcome is success or the original
error kind); the image service alone is indexed by invocation because its
retry/fallback interplay is under study. -/
structure PlatformEnv where
  draftResponse : Except Unit (List Char)
  shortenedResponse : Except Unit (List Char)
  hashtagResponse : Except Unit (List Char)
  imagePromptResponse : Except Unit (List Char)
  imageService : Nat → Except Unit ImageResponse

/-- Errors `generate_post` can surface to its caller: the `ValueError`
raised for an unknown platform key (the spec's `UnsupportedPlatformError`),
or a model-service failure propagating after retry exhaustion from the
content, hashtag, or image-prompt call site. -/
inductive GenError where
  | unsupportedPlatform (platform : String)
  | serviceFailure (site : String)
deriving DecidableEq

/-- `SocialMediaGenerator._generate_content` (`generator.py` lines 236-277)
over a platform environment: on draft success strip the response; if it
exceeds the limit, make the shortening call and post-process it via
`regenerate_shorter_content`; otherwise return the stripped draft as-is.
Returns the outcome together with the number of text-model calls made. -/
def generate_content (env : PlatformEnv) (char_limit : Nat) :
    Except GenError (List Char) × Nat :=
  match env.draftResponse with
  | .error _ => (.error (.serviceFailure "content"), 1)
  | .ok draftRaw =>
    let result := pyStrip draftRaw
    if char_limit < result.length then
      match env.shortenedResponse with
      | .error _ => (.error (.serviceFailure "content"), 2)
      | .ok s => (.ok (regenerate_shorter_content s char_limit), 2)
    else (.ok result, 1)

/-- The record `generate_post` assembles (`generator.py` lines 186-199):
content (with hashtags appended when requested), hashtag list, image
outcome, image prompt, platform, and the metadata fields. -/
structure GeneratedPost where
  content : List Char
  hashtags : List (List Char)
  image : ImageOutcome
  image_prompt : List Char
  platform : String
  char_count : Nat
  char_limit : Nat
  image_size : Nat × Nat
  brand_voice : List Char
deriving DecidableEq

/-- The pipeline of `generate_post` after platform validation and brand
voice resolution (`generator.py` lines 168-201): content generation, then
(when requested) hashtag generation with the formatted hashtags appended
to the content after a blank line, then the image prompt call, then the
image step, then assembly.  The second component counts the model call
sites invoked. -/
def generate_post_body (env : PlatformEnv) (spec : PlatformSpec)
    (platform : String) (voice : List Char) (include_hashtags : Bool) :
    Except GenError GeneratedPost × Nat :=
  match generate_content env spec.char_limit with
  | (.error e, n1) => (.error e, n1)
  | (.ok content0, n1) =>
    let hstep : Except GenError (List Char × List (List Char)) × Nat :=
      if include_hashtags then
        match env.hashtagResponse with
        | .error _ => (.error (.serviceFailure "hashtags"), 1)
        | .ok r =>
          let tags := parse_hashtags r spec.max_hashtags
          (.ok (content0 ++ ['\n', '\n'] ++ format_hashtags tags, tags), 1)
      else (.ok (content0, []), 0)
    match hstep with
    | (.error e, n2) => (.error e, n1 + n2)
    | (.ok (content, tags), n2) =>
      match env.imagePromptResponse with
      | .error _ => (.error (.serviceFailure "image_prompt"), n1 + n2 + 1)
      | .ok ipRaw =>
        let image_prompt := pyStrip ipRaw
        let imgStep := generate_image env.imageService platform spec
          image_prompt
        match imgStep.1 with
        | .error _ => (.error (.serviceFailure "image"),
            n1 + n2 + 1 + imgStep.2.1)
        | .ok image =>
          (.ok { content := content, hashtags := tags, image := image,
                 image_prompt := image_prompt, platform := platform,
                 char_count := content.length,
                 char_limit := spec.char_limit,
                 image_size := spec.image_size, brand_voice := voice },
           n1 + n2 + 1 + imgStep.2.1)

/-- `SocialMediaGenerator.generate_post` (`generator.py` lines 134-201):
validate the platform key against `PLATFORM_SPECS` (raising for unknown
keys before any model call), resolve the brand voice (the caller's value
verbatim when supplied, otherwise derived from the guidelines), then run
the pipeline body. -/
def generate_post (env : PlatformEnv) (g : Guidelines)
    (user_prompt : List Char) (platform : String) (context : List Char)
    (brand_voice : Option (List Char)) (include_hashtags : Bool) :
    Except GenError GeneratedPost × Nat :=
  match PLATFORM_SPECS.lookup platform with
  | none => (.error (.unsupportedPlatform platform), 0)
  | some spec =>
    let voice := brand_voice.getD (get_brand_voice g platform)
    generate_post_body env spec platform voice include_hashtags

/-- `SocialMediaGenerator.generate_all_platforms` (`generator.py` lines
203-233): iterate the configured platforms in table order; each platform's
`generate_post` failure is caught and recorded as `none` for that platform
only, so the aggregate never raises.  `envs p` is the service environment
platform `p`'s run would observe. -/
def generate_all_platforms (envs : String → PlatformEnv) (g : Guidelines)
    (user_prompt context : List Char) (brand_voice : Option (List Char))
    (include_hashtags : Bool) : List (String × Option GeneratedPost) :=
  (PLATFORM_SPECS.map Prod.fst).map (fun platform =>
    (platform,
      match (generate_post (envs platform) g user_prompt platform context
          brand_voice include_hashtags).1 with
      | .ok post => some post
      | .error _ => none))

/-- C3: for every zero-argument operation that fails on every invocation,
a retry-wrapped call with `max_retries = 2` invokes the operation exactly
3 times, sleeps `initial_delay * exponential_base ^ attempt` between
consecutive attempts, and re-raises the last error unchanged. -/
theorem retry_exhaustion {E A : Type} (op : Nat → Except E A)
    (errs : Nat → E) (hfail : ∀ k, op k = .error (errs k)) (d b : ℚ) :
    retry_with_exponential_backoff op 2 d b
      = (.error (errs 2), 3, [d * b ^ 0, d * b ^ 1]) := by
  simp [retry_with_exponential_backoff, retryGo, hfail 0, hfail 1, hfail 2,
    pow_succ, mul_assoc]

/-- Witness for C3 at a concrete always-failing operation. -/
theorem retry_exhaustion_witness :
    retry_with_exponential_backoff
        (fun k => (Except.error k : Except Nat Unit)) 2 1 2
      = (.error 2, 3, [1 * 2 ^ 0, 1 * 2 ^ 1]) :=
  retry_exhaustion (fun k => (Except.error k : Except Nat Unit))
    (fun k => k) (fun _ => rfl) 1 2

/-- C7: for every zero-argument operation that fails on its first two
invocations and succeeds on the third, a retry-wrapped call with
`max_retries = 3` invokes the operation exactly 3 times and returns the
third invocation's success value untouched. -/
theorem retry_eventual_success {E A : Type} (op : Nat → Except E A)
    (e0 e1 : E) (a : A) (h0 : op 0 = .error e0) (h1 : op 1 = .error e1)
    (h2 : op 2 = .ok a) (d b : ℚ) :
    (retry_with_exponential_backoff op 3 d b).1 = .ok a ∧
    (retry_with_exponential_backoff op 3 d b).2.1 = 3 := by
  simp [retry_with_exponential_backoff, retryGo, h0, h1, h2]

/-- Witness for C7 at a concrete fail-twice-then-succeed operation. -/
theorem retry_eventual_success_witness :
    (retry_with_exponential_backoff
        (fun k => if k < 2 then (Except.error k : Except Nat Nat)
                  else Except.ok 42) 3 1 2).1 = .ok 42 ∧
    (retry_with_exponential_backoff
        (fun k => if k < 2 then (Except.error k : Except Nat Nat)
                  else Except.ok 42) 3 1 2).2.1 = 3 :=
  retry_eventual_success
    (fun k => if k < 2 then (Except.error k : Except Nat Nat)
              else Except.ok 42) 0 1 42 rfl rfl rfl 1 2

/-- Every configured platform's character limit is at least 3, so the
`char_limit - 3` truncation never underflows. -/
theorem char_limit_ge_three (p : String) (s : PlatformSpec)
    (h : PLATFORM_SPECS.lookup p = some s) : 3 ≤ s.char_limit := by
  simp only [PLATFORM_SPECS, List.lookup] at h
  repeat' split at h
  all_goals first
    | (injection h with h2; subst h2; decide)
    | exact Option.noConfusion h

/-- The shortening fallback always lands within the limit. -/
theorem regenerate_shorter_length (s : List Char) (char_limit : Nat)
    (h3 : 3 ≤ char_limit) :
    (regenerate_shorter_content s char_limit).length ≤ char_limit := by
  by_cases h : char_limit < (pyStrip s).length
  · have ht : ((pyStrip s).take (char_limit - 3)).length ≤ char_limit - 3 :=
      List.length_take_le _ _
    have he : ELLIPSIS.length = 3 := rfl
    simp only [regenerate_shorter_content, if_pos h, List.length_append, he]
    omega
  · simp only [regenerate_shorter_content, if_neg h]
    omega

/-- C1: for every platform and all text-model responses, the content the
content-generation step produces (before hashtags are appended) has length
at most the platform's `char_limit`; within-limit content is returned
as-is after one model call, and content still over the limit after the
shortening call is hard-truncated to `char_limit - 3` characters with the
ellipsis marker appended. -/
theorem content_length_invariant (platform : String) (spec : PlatformSpec)
    (hspec : PLATFORM_SPECS.lookup platform = some spec)
    (env : PlatformEnv) :
    (∀ content, (generate_content env spec.char_limit).1 = .ok content →
      content.length ≤ spec.char_limit) ∧
    (∀ draft, env.draftResponse = .ok draft →
      (pyStrip draft).length ≤ spec.char_limit →
      generate_content env spec.char_limit = (.ok (pyStrip draft), 1)) ∧
    (∀ draft s, env.draftResponse = .ok draft →
      env.shortenedResponse = .ok s →
      spec.char_limit < (pyStrip draft).length →
      spec.char_limit < (pyStrip s).length →
      generate_content env spec.char_limit
        = (.ok ((pyStrip s).take (spec.char_limit - 3) ++ ELLIPSIS), 2)) := by
  have h3 := char_limit_ge_three platform spec hspec
  refine ⟨?_, ?_, ?_⟩
  · intro content h
    unfold generate_content at h
    cases hd : env.draftResponse with
    | error e => rw [hd] at h; simp at h
    | ok draft =>
      rw [hd] at h
      dsimp only at h
      by_cases hover : spec.char_limit < (pyStrip draft).length
      · rw [if_pos hover] at h
        cases hs : env.shortenedResponse with
        | error e => rw [hs] at h; simp at h
        | ok s =>
          rw [hs] at h
          simp only [Except.ok.injEq] at h
          rw [← h]
          exact regenerate_shorter_length s spec.char_limit h3
      · rw [if_neg hover] at h
        simp only [Except.ok.injEq] at h
        rw [← h]
        omega
  · intro draft hd hle
    unfold generate_content
    rw [hd]
    dsimp only
    rw [if_neg (by omega)]
  · intro draft s hd hs hover hsover
    unfold generate_content
    rw [hd]
    dsimp only
    rw [if_pos hover, hs]
    simp only [regenerate_shorter_content, if_pos hsover, ELLIPSIS]

/-- A concrete environment in which every model call succeeds. -/
def envOk : PlatformEnv :=
  { draftResponse := .ok ("Exciting update from our team".toList),
    shortenedResponse := .ok ("Short version".toList),
    hashtagResponse := .ok ("Innovation, TechTrends, Growth".toList),
    imagePromptResponse := .ok ("A bright abstract banner".toList),
    imageService := fun _ => .ok ⟨[⟨some (1200, 675)⟩]⟩ }

/-- A concrete environment whose content draft call fails. -/
def envFailDraft : PlatformEnv :=
  { envOk with draftResponse := .error () }

/-- A concrete set of brand guidelines. -/
def guidelinesW : Guidelines :=
  { primary := some ("warm and direct".toList),
    tone_keywords := ["clear".toList, "optimistic".toList],
    platform_preferences :=
      [("linkedin", ("thought leadership".toList, "long-form".toList))] }

/-- Witness for C1 on the twitter specification and a concrete in-limit
draft. -/
theorem content_length_invariant_witness :
    PLATFORM_SPECS.lookup "twitter" = some ⟨280, (1200, 675), 2⟩ ∧
    generate_content envOk
        ((⟨280, (1200, 675), 2⟩ : PlatformSpec).char_limit)
      = (.ok (pyStrip ("Exciting update from our team".toList)), 1) :=
  ⟨by decide,
   (content_length_invariant "twitter" ⟨280, (1200, 675), 2⟩ (by decide)
      envOk).2.1 ("Exciting update from our team".toList) rfl (by decide)⟩

/-- C6: a request whose platform key is not configured fails with the
unsupported-platform error before any model call site is invoked (the
invocation counter of the result is 0), and no retry wraps
`generate_post`, so the error is surfaced directly. -/
theorem unsupported_platform (env : PlatformEnv) (g : Guidelines)
    (user_prompt : List Char) (platform : String) (context : List Char)
    (brand_voice : Option (List Char)) (include_hashtags : Bool)
    (h : PLATFORM_SPECS.lookup platform = none) :
    generate_post env g user_prompt platform context brand_voice
        include_hashtags
      = (.error (.unsupportedPlatform platform), 0) := by
  unfold generate_post
  rw [h]

/-- Witness for C6 at the platform key from the spec's scenario. -/
theorem unsupported_platform_witness :
    generate_post envOk guidelinesW ("New AI feature".toList)
        "not_a_real_platform" [] none true
      = (.error (.unsupportedPlatform "not_a_real_platform"), 0) :=
  unsupported_platform envOk guidelinesW ("New AI feature".toList)
    "not_a_real_platform" [] none true (by decide)

/-- C5: for every platform and every text-model response, the parsed
hashtag list has length at most the platform's `max_hashtags`; when the
model returns at least `max_hashtags` comma-separated items the list is
truncated to exactly `max_hashtags`. -/
theorem hashtag_cap (platform : String) (spec : PlatformSpec)
    (hspec : PLATFORM_SPECS.lookup platform = some spec)
    (response : List Char) :
    (parse_hashtags response spec.max_hashtags).length ≤ spec.max_hashtags ∧
    (spec.max_hashtags ≤ ((pyStrip response).splitOn ',').length →
      (parse_hashtags response spec.max_hashtags).length
        = spec.max_hashtags) := by
  unfold parse_hashtags
  simp only [List.length_take, List.length_map]
  omega

/-- Witness for C5 on the twitter specification (`max_hashtags = 2`) and a
model response carrying more items than the cap. -/
theorem hashtag_cap_witness :
    (parse_hashtags ("One, Two, Three, Four".toList) 2).length ≤ 2 ∧
    (parse_hashtags ("One, Two, Three, Four".toList) 2).length = 2 :=
  ⟨(hashtag_cap "twitter" ⟨280, (1200, 675), 2⟩ (by decide)
      ("One, Two, Three, Four".toList)).1,
   (hashtag_cap "twitter" ⟨280, (1200, 675), 2⟩ (by decide)
      ("One, Two, Three, Four".toList)).2 (by decide)⟩

/-- C8 fails on the code: the parser removes every `'#'` in an item, not
only a leading one, so an item with an interior `'#'` loses it.  At the
model response `"C#, Tech"` the code yields `"C"` where the claim's
leading-only stripping would yield `"C#"`. -/
theorem hashtag_parse_counterexample :
    parse_hashtags ("C#, Tech".toList) 5 = ["C".toList, "Tech".toList] ∧
    parse_hashtags_spec ("C#, Tech".toList) 5
      = ["C#".toList, "Tech".toList] ∧
    ¬ parse_hashtags ("C#, Tech".toList) 5
        = parse_hashtags_spec ("C#, Tech".toList) 5 := by
  decide

/-- C8 as amended: the parser splits on commas, strips surrounding
whitespace from each item and removes every `'#'` character from it (not
only a leading one), preserves the items' order, and truncates to
`max_hashtags`; every returned string is free of `'#'` anywhere. -/
theorem hashtag_parse_amended (response : List Char) (max_hashtags : Nat) :
    (∀ tag ∈ parse_hashtags response max_hashtags, ∀ c ∈ tag, ¬ c = '#') ∧
    parse_hashtags response max_hashtags
      = (((pyStrip response).splitOn ',').take max_hashtags).map
          (fun tag => (pyStrip tag).filter (fun c => c != '#')) := by
  constructor
  · intro tag htag c hc
    unfold parse_hashtags at htag
    have htag2 := (List.take_sublist _ _).subset htag
    obtain ⟨t, -, rfl⟩ := List.mem_map.mp htag2
    have := List.of_mem_filter hc
    simpa using this
  · unfold parse_hashtags
    exact (List.map_take _ _ _).symm

/-- Witness for C8's amended statement at a concrete response. -/
theorem hashtag_parse_amended_witness :
    (∀ tag ∈ parse_hashtags ("AI, #ML".toList) 5, ∀ c ∈ tag, ¬ c = '#') ∧
    parse_hashtags ("AI, #ML".toList) 5
      = (((pyStrip ("AI, #ML".toList)).splitOn ',').take 5).map
          (fun tag => (pyStrip tag).filter (fun c => c != '#')) :=
  hashtag_parse_amended ("AI, #ML".toList) 5

/-- Dropping the leading `'#'` run leaves a list that does not start with
`'#'`. -/
theorem dropWhile_hash_take_one (l : List Char) :
    ¬ (l.dropWhile (fun c => c == '#')).take 1 = ['#'] := by
  induction l with
  | nil => simp
  | cons c t ih =>
    by_cases hc : (c == '#') = true
    · simpa [List.dropWhile_cons, hc] using ih
    · simp only [List.dropWhile_cons, hc, if_neg]
      simp only [List.take, List.cons.injEq]
      intro h
      exact absurd (by simp [h.1]) hc

/-- C9: the hashtag formatting operation space-joins one fragment per tag,
each fragment starting with exactly one `'#'` (never a doubled `'##'`
prefix), and prefixing every input tag with `'#'` beforehand does not
change the output. -/
theorem format_hashtags_single_hash (hashtags : List (List Char)) :
    (∃ fragments : List (List Char),
      format_hashtags hashtags = List.intercalate [' '] fragments ∧
      fragments.length = hashtags.length ∧
      ∀ f ∈ fragments, f.head? = some '#' ∧ ¬ f.take 2 = ['#', '#']) ∧
    format_hashtags (hashtags.map (fun tag => '#' :: tag))
      = format_hashtags hashtags := by
  constructor
  · refine ⟨hashtags.map
      (fun tag => '#' :: List.dropWhile (fun c => c == '#') tag),
      by unfold format_hashtags; rfl, List.length_map _ _, ?_⟩
    intro f hf
    obtain ⟨t, -, rfl⟩ := List.mem_map.mp hf
    refine ⟨rfl, ?_⟩
    rw [List.take_succ_cons]
    simp only [List.cons.injEq, true_and]
    exact dropWhile_hash_take_one t
  · unfold format_hashtags
    rw [List.map_map]
    congr 1

/-- C2 fails on the code: every failure inside `_generate_image`'s body is
caught by its own `except` clause, which builds the placeholder and
returns it as a success, so the surrounding retry wrapper never observes a
failure.  With an image service that fails on every invocation, the
service is invoked exactly once — not the `3 + 1` attempts the claim's
exhaust-retries-first behaviour requires — and the placeholder is already
the returned result. -/
theorem image_retry_counterexample :
    (generate_image (fun _ => Except.error ()) "twitter"
        ⟨280, (1200, 675), 2⟩ ("city at dawn".toList)).2.1 = 1 ∧
    ¬ (generate_image (fun _ => Except.error ()) "twitter"
        ⟨280, (1200, 675), 2⟩ ("city at dawn".toList)).2.1 = 3 + 1 ∧
    (generate_image (fun _ => Except.error ()) "twitter"
        ⟨280, (1200, 675), 2⟩ ("city at dawn".toList)).1
      = Except.ok (ImageOutcome.placeholderImage (1200, 675)
          (240, 240, 245)
          ("twitter", (1200, 675), "city at dawn".toList)) :=
  ⟨rfl, by decide, rfl⟩

/-- C2 as amended: when the image-generation call fails (or returns a
malformed or empty response), the placeholder — a solid-color canvas at
the exact platform dimensions with a sidecar recording platform,
dimensions, and the original prompt — is constructed immediately on that
first failure and its path returned; the retry budget of the surrounding
wrapper is never exercised (exactly one service invocation is made), and
an image-generation failure never propagates to the caller. -/
theorem image_placeholder_amended (platform : String) (spec : PlatformSpec)
    (hspec : PLATFORM_SPECS.lookup platform = some spec)
    (svc : Nat → Except Unit ImageResponse) (prompt : List Char) :
    (generate_image svc platform spec prompt).2.1 = 1 ∧
    (∃ out, (generate_image svc platform spec prompt).1 = .ok out) ∧
    (image_call_fails (svc 0) = true →
      (generate_image svc platform spec prompt).1
        = .ok (ImageOutcome.placeholderImage spec.image_size
            (240, 240, 245) (platform, spec.image_size, prompt))) := by
  refine ⟨rfl, ⟨generate_image_once (svc 0) platform spec prompt, rfl⟩, ?_⟩
  intro hfails
  show Except.ok (generate_image_once (svc 0) platform spec prompt) = _
  cases hsvc : svc 0 with
  | error e => rfl
  | ok resp =>
    rw [hsvc] at hfails
    unfold image_call_fails at hfails
    unfold generate_image_once
    dsimp only at hfails ⊢
    cases hparts : resp.parts with
    | nil => rfl
    | cons part rest =>
      rw [hparts] at hfails
      dsimp only at hfails ⊢
      cases hdata : part.inline_data with
      | none => rfl
      | some sz => rw [hdata] at hfails; exact absurd hfails (by simp)

/-- Witness for C2's amended statement: linkedin specification, an
always-failing image service. -/
theorem image_placeholder_amended_witness :
    (generate_image (fun _ => Except.error ()) "linkedin"
        ⟨3000, (1200, 627), 5⟩ ("lakeside event".toList)).2.1 = 1 ∧
    (generate_image (fun _ => Except.error ()) "linkedin"
        ⟨3000, (1200, 627), 5⟩ ("lakeside event".toList)).1
      = .ok (ImageOutcome.placeholderImage (1200, 627) (240, 240, 245)
          ("linkedin", (1200, 627), "lakeside event".toList)) :=
  ⟨(image_placeholder_amended "linkedin" ⟨3000, (1200, 627), 5⟩ (by decide)
      (fun _ => Except.error ()) ("lakeside event".toList)).1,
   (image_placeholder_amended "linkedin" ⟨3000, (1200, 627), 5⟩ (by decide)
      (fun _ => Except.error ()) ("lakeside event".toList)).2.2 rfl⟩

/-- Every successful run of the pipeline body carries the resolved voice
unchanged into the assembled record. -/
theorem generate_post_body_voice (env : PlatformEnv) (spec : PlatformSpec)
    (platform : String) (voice : List Char) (include_hashtags : Bool)
    (post : GeneratedPost)
    (h : (generate_post_body env spec platform voice include_hashtags).1
      = .ok post) :
    post.brand_voice = voice := by
  unfold generate_post_body at h
  repeat' split at h
  all_goals first
    | exact Except.noConfusion h
    | (injection h with h2; rw [← h2])

/-- C10: a caller-supplied brand voice (any non-None string, the empty
string included) is used verbatim for the whole run — every successful
post records it unchanged, and the result does not depend on the brand
guidelines at all; derivation from the guidelines happens only when the
argument is absent (None), in which case the recorded voice is exactly
`get_brand_voice`. -/
theorem brand_voice_verbatim (env : PlatformEnv) (g g2 : Guidelines)
    (user_prompt : List Char) (platform : String) (context : List Char)
    (v : List Char) (include_hashtags : Bool) :
    (∀ post, (generate_post env g user_prompt platform context (some v)
        include_hashtags).1 = .ok post → post.brand_voice = v) ∧
    generate_post env g user_prompt platform context (some v)
        include_hashtags
      = generate_post env g2 user_prompt platform context (some v)
        include_hashtags ∧
    (∀ post, (generate_post env g user_prompt platform context none
        include_hashtags).1 = .ok post →
      post.brand_voice = get_brand_voice g platform) := by
  refine ⟨?_, ?_, ?_⟩
  · intro post h
    unfold generate_post at h
    cases hl : PLATFORM_SPECS.lookup platform with
    | none => rw [hl] at h; exact Except.noConfusion h
    | some spec =>
      rw [hl] at h
      exact generate_post_body_voice env spec platform v include_hashtags
        post h
  · unfold generate_post
    cases hl : PLATFORM_SPECS.lookup platform <;> rfl
  · intro post h
    unfold generate_post at h
    cases hl : PLATFORM_SPECS.lookup platform with
    | none => rw [hl] at h; exact Except.noConfusion h
    | some spec =>
      rw [hl] at h
      exact generate_post_body_voice env spec platform
        (get_brand_voice g platform) include_hashtags post h

/-- Witness for C10: a concrete run with the empty string supplied as the
brand voice; the run succeeds, records the empty voice verbatim, and is
independent of the guidelines. -/
theorem brand_voice_verbatim_witness :
    ((generate_post envOk guidelinesW ("launch".toList) "twitter" []
        (some []) true).1.isOk = true) ∧
    (∀ post, (generate_post envOk guidelinesW ("launch".toList) "twitter" []
        (some []) true).1 = .ok post → post.brand_voice = []) ∧
    generate_post envOk guidelinesW ("launch".toList) "twitter" []
        (some []) true
      = generate_post envOk ⟨none, [], []⟩ ("launch".toList) "twitter" []
        (some []) true :=
  ⟨by decide,
   (brand_voice_verbatim envOk guidelinesW ⟨none, [], []⟩ ("launch".toList)
      "twitter" [] [] true).1,
   (brand_voice_verbatim envOk guidelinesW ⟨none, [], []⟩ ("launch".toList)
      "twitter" [] [] true).2.1⟩

/-- Looking up a key in an association list built by pairing each key with
a function of it returns that function's value at the key. -/
theorem lookup_map_pair {β : Type} (f : String → β) :
    ∀ (keys : List String) (p : String), p ∈ keys →
      (keys.map (fun q => (q, f q))).lookup p = some (f p) := by
  intro keys
  induction keys with
  | nil => intro p hp; exact absurd hp (List.not_mem_nil p)
  | cons k ks ih =>
    intro p hp
    by_cases hpk : p = k
    · subst hpk
      simp [List.lookup]
    · have hbeq : (p == k) = false := beq_eq_false_iff_ne.mpr hpk
      simp only [List.map_cons, List.lookup, hbeq]
      exact ih p ((List.mem_cons.mp hp).resolve_left hpk)

/-- C4: in `generate_all_platforms`, when exactly one configured
platform's pipeline fails and every other configured platform's pipeline
succeeds, the returned mapping records `none` for the failing platform and
a non-null post for every other platform; the aggregate itself is a total
function and never raises. -/
theorem failure_isolation (envs : String → PlatformEnv) (g : Guidelines)
    (user_prompt context : List Char) (bv : Option (List Char))
    (include_hashtags : Bool) (bad : String)
    (hbad : bad ∈ PLATFORM_SPECS.map Prod.fst)
    (hfail : (generate_post (envs bad) g user_prompt bad context bv
        include_hashtags).1.isOk = false)
    (hok : ∀ p ∈ PLATFORM_SPECS.map Prod.fst, ¬ p = bad →
      (generate_post (envs p) g user_prompt p context bv
        include_hashtags).1.isOk = true) :
    (generate_all_platforms envs g user_prompt context bv
        include_hashtags).lookup bad = some none ∧
    ∀ p ∈ PLATFORM_SPECS.map Prod.fst, ¬ p = bad →
      ∃ post, (generate_all_platforms envs g user_prompt context bv
          include_hashtags).lookup p = some (some post) := by
  have hlk := lookup_map_pair (fun q =>
    match (generate_post (envs q) g user_prompt q context bv
        include_hashtags).1 with
    | .ok post => some post
    | .error _ => none) (PLATFORM_SPECS.map Prod.fst)
  constructor
  · have h1 : (generate_all_platforms envs g user_prompt context bv
        include_hashtags).lookup bad
      = some (match (generate_post (envs bad) g user_prompt bad context bv
            include_hashtags).1 with
        | .ok post => some post
        | .error _ => none) := hlk bad hbad
    rw [h1]
    cases hres : (generate_post (envs bad) g user_prompt bad context bv
        include_hashtags).1 with
    | error e => rfl
    | ok post => rw [hres] at hfail; exact Bool.noConfusion hfail
  · intro p hp hne
    have h1 : (generate_all_platforms envs g user_prompt context bv
        include_hashtags).lookup p
      = some (match (generate_post (envs p) g user_prompt p context bv
            include_hashtags).1 with
        | .ok post => some post
        | .error _ => none) := hlk p hp
    have hpo := hok p hp hne
    cases hres : (generate_post (envs p) g user_prompt p context bv
        include_hashtags).1 with
    | error e => rw [hres] at hpo; exact Bool.noConfusion hpo
    | ok post =>
      refine ⟨post, ?_⟩
      rw [h1, hres]

/-- Witness for C4: the twitter environment fails at the draft call, the
other three platforms succeed. -/
theorem failure_isolation_witness :
    (generate_all_platforms
        (fun p => if p = "twitter" then envFailDraft else envOk)
        guidelinesW ("launch".toList) [] none true).lookup "twitter"
      = some none ∧
    ∀ p ∈ PLATFORM_SPECS.map Prod.fst, ¬ p = "twitter" →
      ∃ post, (generate_all_platforms
          (fun p => if p = "twitter" then envFailDraft else envOk)
          guidelinesW ("launch".toList) [] none true).lookup p
        = some (some post) :=
  failure_isolation
    (fun p => if p = "twitter" then envFailDraft else envOk)
    guidelinesW ("launch".toList) [] none true "twitter"
    (by decide) (by decide) (by decide)

/-- Witness for C9 at a concrete tag list containing an already-prefixed
entry. -/
theorem format_hashtags_single_hash_witness :
    (∃ fragments : List (List Char),
      format_hashtags ["ai".toList, "#tech".toList]
        = List.intercalate [' '] fragments ∧
      fragments.length
        = (["ai".toList, "#tech".toList] : List (List Char)).length ∧
      ∀ f ∈ fragments, f.head? = some '#' ∧ ¬ f.take 2 = ['#', '#']) ∧
    format_hashtags
        ((["ai".toList, "#tech".toList] : List (List Char)).map
          (fun tag => '#' :: tag))
      = format_hashtags ["ai".toList, "#tech".toList] :=
  format_hashtags_single_hash ["ai".toList, "#tech".toList]
